import Mathlib

/-!
# Verification of the Rurtle core (turtle graphics runtime)

Shallow embedding of the Rurtle repository's core:
* `src/turtle.rs` — the `Turtle` state machine over its `TurtleScreen` canvas;
* `src/environ/functions/env.rs` — the `make`, `global` and `screenshot` builtins;
* `src/environ/functions/types.rs` — the list builtins (`head`, `tail`, `length`,
  `isempty`, `getindex`, `not`).

Modelling conventions:
* Rust `f32` is modelled as `ℚ` (exact arithmetic); the Rust float remainder
  `%` (sign of the dividend, magnitude below the divisor) is modelled by `fmod`.
* The `std` trigonometric functions and the constant `PI` are foreign to the
  repository; they are abstracted as a `TrigFns` record of function parameters.
* The `graphic` module (`TurtleScreen`, `color`) and the `environ` module root
  (`Value`, `Environment`, `RuntimeError`, the `get_args!` macro) are not under
  `src/`; they are modelled from the spec where needed, as marked.
-/

/-- RGBA color, each channel an `f32` (modelled `ℚ`), as in `color::Color`. -/
abbrev Color : Type := ℚ × ℚ × ℚ × ℚ

/-- Modelled from the spec: `color::BLACK` from the missing `graphic::color`
module, the default drawing color (opaque black). -/
def BLACK : Color := (0, 0, 0, 1)

/-- Modelled from the spec (§3, §6): the `Value` variant type from the missing
`environ` module root: Number (floating point, modelled `ℚ`), Text (called
`Value::String` in the code), ordered List, Nothing. -/
inductive Value where
  | Number (n : ℚ)
  | String (s : String)
  | List (vs : List Value)
  | Nothing
deriving Repr

/-- Modelled from the spec (§7): Rust derives `Debug` for `Value` in the missing
`environ` module root; this is the `{:?}` rendering used in error messages. -/
def valueDebug : Value → String
  | Value.Number n => "Number(" ++ toString n ++ ")"
  | Value.String s => "String(" ++ s ++ ")"
  | Value.List vs => "List([" ++ String.intercalate ", " (vs.attach.map (fun v => valueDebug v.1)) ++ "])"
  | Value.Nothing => "Nothing"
decreasing_by simp only [Value.List.sizeOf_spec]; have := List.sizeOf_lt_of_mem v.2; omega

/-- Modelled from the spec (§7): the flat failure kind `RuntimeError(String)`
from the missing `environ` module root: a single descriptive message. -/
structure RuntimeError where
  msg : String
deriving DecidableEq, Repr

/-- `ResultType` from the missing `environ` module root: a builtin returns a
`Value` or a `RuntimeError`. -/
abbrev ResultType : Type := Except RuntimeError Value

/-- Modelled from the spec (§4.1, §7): the failure produced by the `get_args!`
macro (missing `environ` module root) when an argument does not match the
expected shape: a type-mismatch `RuntimeError`. -/
def typeMismatch (args : List Value) : ResultType :=
  Except.error ⟨"type mismatch: " ++ String.intercalate ", " (args.map valueDebug)⟩

/-! ## Rust float remainder

Rust's `%` on `f32` is the IEEE remainder with the sign of the dividend:
`a % b = a - b * trunc(a / b)`. On exact values this operation is exact, so the
`ℚ` model below is faithful to `turtle.rs`'s `deg % 360.0`. -/

/-- Truncation toward zero of a rational, as an integer. -/
def ratTrunc (x : ℚ) : ℤ := if x < 0 then ⌈x⌉ else ⌊x⌋

/-- Rust's float remainder `a % b`: `a - b * trunc(a / b)`. -/
def fmod (a b : ℚ) : ℚ := a - b * (ratTrunc (a / b) : ℚ)

/-! ## The canvas collaborator -/

/-- Modelled from the spec (§3, §6): the `TurtleScreen` canvas collaborator of
the missing `graphic` module. It records the drawn primitives (`add_line`,
`add_text`, `floodfill` calls), holds the turtle's last-known pose/visibility
and the background color, and counts `draw_and_update` re-render calls. -/
structure TurtleScreen where
  lines : List ((ℚ × ℚ) × (ℚ × ℚ) × Color)
  texts : List ((ℚ × ℚ) × ℚ × Color × String)
  fills : List ((ℚ × ℚ) × Color)
  turtle_position : ℚ × ℚ
  turtle_orientation : ℚ
  turtle_color : Color
  turtle_hidden : Bool
  background_color : Color
  redraws : ℕ
deriving Repr

/-- Modelled from the spec (§6): `add_line(from, to, color)` records a drawn
segment. -/
def TurtleScreen.add_line (s : TurtleScreen) (a b : ℚ × ℚ) (c : Color) : TurtleScreen :=
  { s with lines := s.lines ++ [(a, b, c)] }

/-- Modelled from the spec (§6): `add_text(at, orientation, color, text)`
records text anchored at `at`. -/
def TurtleScreen.add_text (s : TurtleScreen) (p : ℚ × ℚ) (o : ℚ) (c : Color) (t : String) : TurtleScreen :=
  { s with texts := s.texts ++ [(p, o, c, t)] }

/-- Modelled from the spec (§6): `floodfill(at, color)` records a fill seeded
at `at`. -/
def TurtleScreen.floodfill (s : TurtleScreen) (p : ℚ × ℚ) (c : Color) : TurtleScreen :=
  { s with fills := s.fills ++ [(p, c)] }

/-- Modelled from the spec (§6): `clear()` removes all drawn primitives;
background and turtle pose unaffected. -/
def TurtleScreen.clearScreen (s : TurtleScreen) : TurtleScreen :=
  { s with lines := [], texts := [], fills := [] }

/-- Modelled from the spec (§6): `draw_and_update()` re-renders the current
state; the model counts the re-render calls. -/
def TurtleScreen.draw_and_update (s : TurtleScreen) : TurtleScreen :=
  { s with redraws := s.redraws + 1 }

/-! ## The turtle state machine (`src/turtle.rs`) -/

/-- `PenState` from `turtle.rs`. -/
inductive PenState where
  | PenUp
  | PenDown
deriving DecidableEq, Repr

/-- The `Turtle` struct from `turtle.rs`: it owns its `TurtleScreen` and holds
orientation (degrees), position, color and pen state. -/
structure Turtle where
  screen : TurtleScreen
  orientation : ℚ
  position : ℚ × ℚ
  color : Color
  pen : PenState
deriving Repr

/-- The `std` trigonometric primitives used by `turtle.rs`, abstracted: `sin`,
`cos` (on `f32`, modelled `ℚ → ℚ`) and the constant `PI`. -/
structure TrigFns where
  sin : ℚ → ℚ
  cos : ℚ → ℚ
  pi : ℚ

/-- `Turtle::new`: orientation 0, position (0, 0), color black, pen down. -/
def Turtle.new (screen : TurtleScreen) : Turtle :=
  { screen := screen
    orientation := 0
    position := (0, 0)
    color := BLACK
    pen := PenState.PenDown }

/-- `Turtle::goto` (private): if the pen is down, add a line from the current
position to `(x, y)`; update the position; push it to the screen's displayed
turtle pose; re-render. -/
def Turtle.goto (t : Turtle) (x y : ℚ) : Turtle :=
  let start_position := t.position
  let screen1 :=
    match t.pen with
    | PenState.PenDown => t.screen.add_line start_position (x, y) t.color
    | PenState.PenUp => t.screen
  let position := (x, y)
  let screen2 := { screen1 with turtle_position := position }
  { t with position := position, screen := screen2.draw_and_update }

/-- `Turtle::set_orientation`: orientation becomes `deg % 360.0` (Rust float
remainder), is pushed to the screen, and the screen is re-rendered. -/
def Turtle.set_orientation (t : Turtle) (deg : ℚ) : Turtle :=
  let orientation := fmod deg 360
  { t with orientation := orientation
           screen := { t.screen with turtle_orientation := orientation }.draw_and_update }

/-- `Turtle::turn` (private): add `deg` to the orientation, through
`set_orientation`. -/
def Turtle.turn (t : Turtle) (deg : ℚ) : Turtle :=
  t.set_orientation (t.orientation + deg)

/-- `Turtle::length_to_vector`: the cartesian displacement for walking `length`
at the current orientation: `(-sin(rad) * length, cos(rad) * length)` with
`rad = PI * orientation / 180`. -/
def Turtle.length_to_vector (tf : TrigFns) (t : Turtle) (length : ℚ) : ℚ × ℚ :=
  let orientation_rad := tf.pi * t.orientation / 180
  let delta_x := tf.sin orientation_rad * length
  let delta_y := tf.cos orientation_rad * length
  (-delta_x, delta_y)

/-- `Turtle::clear`: clears the screen's drawn primitives only. -/
def Turtle.clearLines (t : Turtle) : Turtle :=
  { t with screen := t.screen.clearScreen }

/-- `Turtle::forward`: move by `length_to_vector length`. -/
def Turtle.forward (tf : TrigFns) (t : Turtle) (length : ℚ) : Turtle :=
  let (x, y) := t.position
  let (dx, dy) := t.length_to_vector tf length
  t.goto (x + dx) (y + dy)

/-- `Turtle::backward`: move by the negated `length_to_vector length`. -/
def Turtle.backward (tf : TrigFns) (t : Turtle) (length : ℚ) : Turtle :=
  let (x, y) := t.position
  let (dx, dy) := t.length_to_vector tf length
  t.goto (x - dx) (y - dy)

/-- `Turtle::left`: turn by `deg`. -/
def Turtle.left (t : Turtle) (deg : ℚ) : Turtle := t.turn deg

/-- `Turtle::right`: turn by `-deg`. -/
def Turtle.right (t : Turtle) (deg : ℚ) : Turtle := t.turn (-deg)

/-- `Turtle::pen_up`. -/
def Turtle.pen_up (t : Turtle) : Turtle := { t with pen := PenState.PenUp }

/-- `Turtle::pen_down`. -/
def Turtle.pen_down (t : Turtle) : Turtle := { t with pen := PenState.PenDown }

/-- `Turtle::set_color`: set the drawing color (alpha 1), push it to the
screen, re-render. -/
def Turtle.set_color (t : Turtle) (red green blue : ℚ) : Turtle :=
  let color : Color := (red, green, blue, 1)
  { t with color := color
           screen := { t.screen with turtle_color := color }.draw_and_update }

/-- `Turtle::set_background_color`: set the screen background, re-render. -/
def Turtle.set_background_color (t : Turtle) (red green blue : ℚ) : Turtle :=
  { t with screen := { t.screen with background_color := (red, green, blue, 1) }.draw_and_update }

/-- `Turtle::teleport`: `goto` the point directly. -/
def Turtle.teleport (t : Turtle) (x y : ℚ) : Turtle := t.goto x y

/-- `Turtle::home`: teleport to the origin, then set the orientation to 0. -/
def Turtle.home (t : Turtle) : Turtle := (t.teleport 0 0).set_orientation 0

/-- `Turtle::hide` (source name `hide`): set the hidden flag, re-render. -/
def Turtle.hideTurtle (t : Turtle) : Turtle :=
  { t with screen := { t.screen with turtle_hidden := true }.draw_and_update }

/-- `Turtle::show` (source name `show`, a Lean keyword): clear the hidden
flag, re-render. -/
def Turtle.showTurtle (t : Turtle) : Turtle :=
  { t with screen := { t.screen with turtle_hidden := false }.draw_and_update }

/-- `Turtle::write`: add text at the current position and orientation. -/
def Turtle.write (t : Turtle) (text : String) : Turtle :=
  { t with screen := t.screen.add_text t.position t.orientation t.color text }

/-- `Turtle::flood`: floodfill at the current position with the current
color. -/
def Turtle.flood (t : Turtle) : Turtle :=
  { t with screen := t.screen.floodfill t.position t.color }

/-! ## The environment (`environ` module) -/

/-- Modelled from the spec (§3): a `Frame` maps names to `Value`s; keys unique,
last write wins. Modelled as an association list with replacing insert. -/
structure Frame where
  locals : List (String × Value)
deriving Repr

/-- Modelled from the spec (§3): `HashMap::insert` on a frame: bind `name` to
`v`, replacing any previous binding of `name`. -/
def Frame.insert (f : Frame) (name : String) (v : Value) : Frame :=
  ⟨(name, v) :: f.locals.filter (fun p => p.1 ≠ name)⟩

/-- Modelled from the spec (§2, §3, §9): the `Environment` of the missing
`environ` module root: a stack of local frames (innermost first) on top of the
always-present global frame, bundled with the `Turtle` it owns
(`env.get_turtle()`). -/
structure Environment where
  localFrames : List Frame
  globalFrame : Frame
  turtle : Turtle
deriving Repr

/-- Modelled from the spec (§3): `Environment::current_frame`, the innermost
frame (the global frame when no local frame is pushed). -/
def Environment.current_frame (env : Environment) : Frame :=
  match env.localFrames with
  | [] => env.globalFrame
  | f :: _ => f

/-- Replace the innermost frame (the write-back half of the mutable
`current_frame()` reference). -/
def Environment.setCurrentFrame (env : Environment) (f : Frame) : Environment :=
  match env.localFrames with
  | [] => { env with globalFrame := f }
  | _ :: rest => { env with localFrames := f :: rest }

/-- Modelled from the spec (§3): `Environment::global_frame`, the outermost
frame. -/
def Environment.global_frame (env : Environment) : Frame := env.globalFrame

/-! ## Builtins of `src/environ/functions/env.rs`

The Rust builtins take `&mut Environment`; the model threads the environment
explicitly, returning the result together with the updated environment. -/

/-- Modelled from the spec (§6, §7): the panic produced by indexing `args`
beyond its length; unreachable under the evaluator's arity precondition. -/
def arityPanic : RuntimeError := ⟨"internal panic: index out of bounds on args"⟩

/-- `make`: if `args[0]` is text, bind it to `args[1]` in the current
(innermost) frame and return Nothing; otherwise fail with
`"invalid argument: {:?}"` formatting `args[1]` (sic — the source formats the
second argument, not the mismatched first one). -/
def make (env : Environment) (args : List Value) : ResultType × Environment :=
  match args with
  | a0 :: a1 :: _ =>
    match a0 with
    | Value.String name =>
        (Except.ok Value.Nothing, env.setCurrentFrame (env.current_frame.insert name a1))
    | _ => (Except.error ⟨"invalid argument: " ++ valueDebug a1⟩, env)
  | _ => (Except.error arityPanic, env)

/-- `global`: like `make` but binds in the global (outermost) frame; the same
error (formatting `args[1]`) when `args[0]` is not text. -/
def global (env : Environment) (args : List Value) : ResultType × Environment :=
  match args with
  | a0 :: a1 :: _ =>
    match a0 with
    | Value.String name =>
        (Except.ok Value.Nothing, { env with globalFrame := env.globalFrame.insert name a1 })
    | _ => (Except.error ⟨"invalid argument: " ++ valueDebug a1⟩, env)
  | _ => (Except.error arityPanic, env)

/-- Modelled from the spec (§6): the bitmap captured from the screen by
`TurtleScreen::screenshot` (missing `graphic` module): the current rendered
state. -/
structure Bitmap where
  rendered : TurtleScreen
deriving Repr

/-- Modelled from the spec (§6): `capture_bitmap` / `TurtleScreen::screenshot`
returns the current rendered image; no state change. -/
def TurtleScreen.screenshot (s : TurtleScreen) : Bitmap := ⟨s⟩

/-- Modelled from the spec (§6): the file system the export writes to, as a
path-to-content map. `none` is the empty file that `fs::File::create` leaves
behind; `some b` is an encoded bitmap. -/
abbrev FileSystem : Type := List (String × Option Bitmap)

/-- Create or overwrite the entry for `name`. -/
def fsWrite (fs : FileSystem) (name : String) (content : Option Bitmap) : FileSystem :=
  (name, content) :: fs.filter (fun p => p.1 ≠ name)

/-- `screenshot`: requires a text path; captures the screen's bitmap, creates
the file, and encodes the bitmap into it. The external outcomes are abstracted
as oracles: `createOk` says whether `fs::File::create` succeeds at a path
(modelled from the spec §4.2), `encodeOk` whether the PNG encoder accepts the
bitmap. Failures of either become `RuntimeError`s; the environment (hence the
turtle) is returned unchanged on every path. -/
def screenshot (createOk : String → Bool) (encodeOk : Bitmap → Bool)
    (fs : FileSystem) (env : Environment) (args : List Value) :
    ResultType × FileSystem × Environment :=
  match args with
  | Value.String name :: _ =>
      let shot := env.turtle.screen.screenshot
      if createOk name then
        let fs1 := fsWrite fs name none
        if encodeOk shot then
          (Except.ok Value.Nothing, fsWrite fs1 name (some shot), env)
        else
          (Except.error ⟨"image encode error"⟩, fs1, env)
      else
        (Except.error ⟨"could not create file: " ++ name⟩, fs, env)
  | args => (typeMismatch args, fs, env)

/-! ## Builtins of `src/environ/functions/types.rs`

These builtins take `&mut Environment` but never touch it; the model keeps the
parameter and returns only the `ResultType`. -/

/-- `head`: Nothing on the empty list, else the first element; type mismatch
when the first argument is not a list. -/
def head (_ : Environment) (args : List Value) : ResultType :=
  match args with
  | Value.List values :: _ =>
      if values.isEmpty then Except.ok Value.Nothing
      else Except.ok (values.getD 0 Value.Nothing)
  | _ => typeMismatch args

/-- `tail`: Nothing on the empty list, else a new list of all but the first
element. -/
def tail (_ : Environment) (args : List Value) : ResultType :=
  match args with
  | Value.List values :: _ =>
      if values.isEmpty then Except.ok Value.Nothing
      else Except.ok (Value.List values.tail)
  | _ => typeMismatch args

/-- `length`: the element count as a Number. -/
def length (_ : Environment) (args : List Value) : ResultType :=
  match args with
  | Value.List values :: _ => Except.ok (Value.Number values.length)
  | _ => typeMismatch args

/-- `isempty`: 1 if the list is empty, else 0. -/
def isempty (_ : Environment) (args : List Value) : ResultType :=
  match args with
  | Value.List values :: _ =>
      Except.ok (Value.Number (if values.isEmpty then 1 else 0))
  | _ => typeMismatch args

/-- `usize::MAX` on a 64-bit target. -/
def usizeMax : ℕ := 2 ^ 64 - 1

/-- Rust's `n as usize` on an `f32` (modelled `ℚ`): truncate toward zero and
saturate into `[0, usize::MAX]`. -/
def f32ToUsize (n : ℚ) : ℕ :=
  if n < 0 then 0 else min ⌊n⌋.toNat usizeMax

/-- `getindex`: cast the Number to `usize`; out-of-bounds error naming the
index and the length when `idx >= values.len()`, else the element at `idx`. -/
def getindex (_ : Environment) (args : List Value) : ResultType :=
  match args with
  | Value.List values :: Value.Number n :: _ =>
      let idx := f32ToUsize n
      if values.length ≤ idx then
        Except.error ⟨"Index out of bounds: " ++ toString idx ++ " >= " ++ toString values.length⟩
      else
        Except.ok (values.getD idx Value.Nothing)
  | _ => typeMismatch args

/-- Modelled from the spec (§3): `Value::boolean` (missing `environ` module
root): a Value is true when it is not numerically zero. -/
def Value.boolean : Value → Bool
  | Value.Number n => n ≠ 0
  | _ => true

/-- `not`: 0 if `args[0]` is truthy, else 1. -/
def notBuiltin (_ : Environment) (args : List Value) : ResultType :=
  let as_boolean := (args.getD 0 Value.Nothing).boolean
  Except.ok (Value.Number (if as_boolean then 0 else 1))

/-! ## Concrete session used by witnesses -/

/-- A concrete initial canvas: nothing drawn yet, pose at the origin. -/
def screen0 : TurtleScreen :=
  { lines := []
    texts := []
    fills := []
    turtle_position := (0, 0)
    turtle_orientation := 0
    turtle_color := BLACK
    turtle_hidden := false
    background_color := (1, 1, 1, 1)
    redraws := 0 }

/-- The freshly constructed turtle of a session. -/
def turtle0 : Turtle := Turtle.new screen0

/-- A session environment: only the global frame, owning `turtle0`. -/
def env0 : Environment := ⟨[], ⟨[]⟩, turtle0⟩

/-- A concrete instantiation of the abstract trigonometric primitives, for
witnesses (any instantiation satisfies the theorems below). -/
def trig0 : TrigFns := ⟨fun _ => 0, fun _ => 1, 3⟩

/-! ## Sequences of turtle operations (for the orientation invariant) -/

/-- One public operation of the `Turtle` API in `turtle.rs`. -/
inductive Op where
  | forward (len : ℚ)
  | backward (len : ℚ)
  | left (deg : ℚ)
  | right (deg : ℚ)
  | teleport (x y : ℚ)
  | set_orientation (deg : ℚ)
  | home
  | pen_up
  | pen_down
  | set_color (r g b : ℚ)
  | set_background_color (r g b : ℚ)
  | hideTurtle
  | showTurtle
  | write (text : String)
  | flood
  | clearLines
deriving Repr

/-- Dispatch one operation to the corresponding `Turtle` method. -/
def Turtle.step (tf : TrigFns) (t : Turtle) : Op → Turtle
  | Op.forward len => t.forward tf len
  | Op.backward len => t.backward tf len
  | Op.left deg => t.left deg
  | Op.right deg => t.right deg
  | Op.teleport x y => t.teleport x y
  | Op.set_orientation deg => t.set_orientation deg
  | Op.home => t.home
  | Op.pen_up => t.pen_up
  | Op.pen_down => t.pen_down
  | Op.set_color r g b => t.set_color r g b
  | Op.set_background_color r g b => t.set_background_color r g b
  | Op.hideTurtle => t.hideTurtle
  | Op.showTurtle => t.showTurtle
  | Op.write text => t.write text
  | Op.flood => t.flood
  | Op.clearLines => t.clearLines

/-- Run a sequence of operations from a starting state. -/
def Turtle.run (tf : TrigFns) (t : Turtle) (ops : List Op) : Turtle :=
  ops.foldl (Turtle.step tf) t

/-! ## Properties of the Rust float remainder -/

/-- `fmod a b` differs from `a` by an integer multiple of `b`. -/
theorem fmod_sub_int (a b : ℚ) : ∃ k : ℤ, fmod a b = a - b * k :=
  ⟨ratTrunc (a / b), rfl⟩

/-- For a positive divisor, `fmod` lands strictly inside `(-b, b)`. -/
theorem fmod_bounds (a b : ℚ) (hb : 0 < b) : -b < fmod a b ∧ fmod a b < b := by
  have hb0 : b ≠ 0 := ne_of_gt hb
  have hba : b * (a / b) = a := by field_simp
  have key : fmod a b = b * (a / b - (ratTrunc (a / b) : ℚ)) := by
    rw [mul_sub, hba]; rfl
  rw [key]
  unfold ratTrunc
  by_cases h : a / b < 0
  · rw [if_pos h]
    have h1 : (⌈a / b⌉ : ℚ) < a / b + 1 := Int.ceil_lt_add_one (a / b)
    have h2 : a / b ≤ (⌈a / b⌉ : ℚ) := Int.le_ceil (a / b)
    constructor <;> nlinarith
  · rw [if_neg h]
    have h1 : (⌊a / b⌋ : ℚ) ≤ a / b := Int.floor_le (a / b)
    have h2 : a / b < (⌊a / b⌋ : ℚ) + 1 := Int.lt_floor_add_one (a / b)
    constructor <;> nlinarith

/-! ## Claim theorems -/

/-- C1: for every turtle state with orientation θ (degrees) and every length
L, `forward(L)` moves the position by `(-sin(θ_rad) * L, cos(θ_rad) * L)` with
`θ_rad = π · θ / 180`, `backward(L)` moves it by the negated displacement, and
neither call changes the orientation (for any realization of `sin`, `cos`,
`π`). -/
theorem forward_backward_heading_rule (tf : TrigFns) (t : Turtle) (L : ℚ) :
    (Turtle.forward tf t L).position =
      (t.position.1 + -(tf.sin (tf.pi * t.orientation / 180)) * L,
       t.position.2 + tf.cos (tf.pi * t.orientation / 180) * L) ∧
    (Turtle.backward tf t L).position =
      (t.position.1 - -(tf.sin (tf.pi * t.orientation / 180)) * L,
       t.position.2 - tf.cos (tf.pi * t.orientation / 180) * L) ∧
    (Turtle.forward tf t L).orientation = t.orientation ∧
    (Turtle.backward tf t L).orientation = t.orientation := by
  refine ⟨?_, ?_, rfl, rfl⟩ <;>
    simp [Turtle.forward, Turtle.backward, Turtle.goto, Turtle.length_to_vector]

/-- C2: `goto` issues exactly one `add_line` call (from the pre-move position
to the target, in the current color) when the pen is down and none when it is
up, and in both cases updates the internal position, pushes the new position
to the canvas's displayed turtle pose, and triggers one redraw. -/
theorem goto_draw_contract (t : Turtle) (x y : ℚ) :
    (t.pen = PenState.PenDown →
      (t.goto x y).screen.lines = t.screen.lines ++ [(t.position, (x, y), t.color)]) ∧
    (t.pen = PenState.PenUp → (t.goto x y).screen.lines = t.screen.lines) ∧
    (t.goto x y).position = (x, y) ∧
    (t.goto x y).screen.turtle_position = (x, y) ∧
    (t.goto x y).screen.redraws = t.screen.redraws + 1 := by
  obtain ⟨s, o, p, c, pen⟩ := t
  cases pen <;>
    simp [Turtle.goto, TurtleScreen.add_line, TurtleScreen.draw_and_update]

/-- Witness for C2 at a concrete state: the fresh turtle has the pen down, so
moving it to (3, 4) draws exactly the one line from (0, 0) to (3, 4) in black,
lands at (3, 4), pushes (3, 4) to the canvas pose and redraws once. -/
theorem goto_draw_contract_witness :
    turtle0.pen = PenState.PenDown ∧
    (turtle0.goto 3 4).screen.lines = turtle0.screen.lines ++ [((0, 0), (3, 4), BLACK)] ∧
    (turtle0.goto 3 4).position = (3, 4) ∧
    (turtle0.goto 3 4).screen.turtle_position = (3, 4) ∧
    (turtle0.goto 3 4).screen.redraws = turtle0.screen.redraws + 1 := by
  have h := goto_draw_contract turtle0 3 4
  exact ⟨rfl, h.1 rfl, h.2.2.1, h.2.2.2.1, h.2.2.2.2⟩

/-- C3: `set_orientation(deg)` sets the orientation to a representative of
`deg` modulo 360 lying in the fixed range (-360, 360), pushes the new
orientation to the canvas and triggers one redraw; in particular
`set_orientation(370)` and `set_orientation(10)` leave the turtle with the
same orientation. -/
theorem set_orientation_mod_360 (t : Turtle) (deg : ℚ) :
    (∃ k : ℤ, (t.set_orientation deg).orientation = deg - 360 * k) ∧
    -360 < (t.set_orientation deg).orientation ∧
    (t.set_orientation deg).orientation < 360 ∧
    (t.set_orientation deg).screen.turtle_orientation = (t.set_orientation deg).orientation ∧
    (t.set_orientation deg).screen.redraws = t.screen.redraws + 1 ∧
    (t.set_orientation 370).orientation = (t.set_orientation 10).orientation := by
  have hb := fmod_bounds deg 360 (by norm_num)
  refine ⟨fmod_sub_int deg 360, hb.1, hb.2, rfl, rfl, ?_⟩
  show fmod 370 360 = fmod 10 360
  have h1 : ratTrunc (370 / 360 : ℚ) = 1 := by norm_num [ratTrunc]
  have h2 : ratTrunc (10 / 360 : ℚ) = 0 := by norm_num [ratTrunc]
  simp only [fmod, h1, h2]
  norm_num

/-- C4: `left(D)` then `right(D)` restores the orientation to its pre-call
value modulo 360; `left` adds its argument to the orientation and `right`
subtracts it, both through the shared `turn` primitive. -/
theorem left_right_round_trip (t : Turtle) (D : ℚ) :
    (∃ k : ℤ, ((t.left D).right D).orientation = t.orientation + 360 * k) ∧
    t.left D = t.turn D ∧
    t.right D = t.turn (-D) ∧
    t.turn D = t.set_orientation (t.orientation + D) := by
  refine ⟨?_, rfl, rfl, rfl⟩
  obtain ⟨k1, h1⟩ := fmod_sub_int (t.orientation + D) 360
  obtain ⟨k2, h2⟩ := fmod_sub_int (fmod (t.orientation + D) 360 + -D) 360
  refine ⟨-(k1 + k2), ?_⟩
  show fmod (fmod (t.orientation + D) 360 + -D) 360 = _
  rw [h2, h1]
  push_cast
  ring

/-- Helper: one operation keeps the orientation strictly inside (-360, 360):
the orientation-writing operations pass through `fmod · 360`, the others leave
the field untouched. -/
theorem step_orientation_bounds (tf : TrigFns) (t : Turtle) (op : Op)
    (h : -360 < t.orientation ∧ t.orientation < 360) :
    -360 < (t.step tf op).orientation ∧ (t.step tf op).orientation < 360 := by
  have h360 : (0 : ℚ) < 360 := by norm_num
  cases op <;>
    first
      | exact h
      | exact fmod_bounds _ 360 h360

/-- Helper: the invariant of `step_orientation_bounds`, preserved along any
operation sequence. -/
theorem run_orientation_bounds (tf : TrigFns) (ops : List Op) :
    ∀ t : Turtle, -360 < t.orientation ∧ t.orientation < 360 →
      -360 < (t.run tf ops).orientation ∧ (t.run tf ops).orientation < 360 := by
  induction ops with
  | nil => exact fun t h => h
  | cons op rest ih => exact fun t h => ih _ (step_orientation_bounds tf t op h)

/-- C9: starting from a newly constructed turtle (orientation 0), after every
sequence of turtle operations the orientation lies strictly between -360 and
360: every write goes through the sign-preserving remainder by 360, and the
other operations do not touch the orientation. -/
theorem new_turtle_orientation_invariant (tf : TrigFns) (s : TurtleScreen) (ops : List Op) :
    -360 < ((Turtle.new s).run tf ops).orientation ∧
    ((Turtle.new s).run tf ops).orientation < 360 :=
  run_orientation_bounds tf ops (Turtle.new s) (by norm_num [Turtle.new])

/-- A session with one pushed local frame, for exercising `make`/`global`. -/
def envNested : Environment := ⟨[⟨[]⟩], ⟨[]⟩, turtle0⟩

/-- C5 (code bug): with a text first argument, `make` binds in the innermost
frame and `global` binds in the outermost frame, both succeeding and leaving
the other frames alone; with a non-text first argument both fail leaving the
environment unchanged — but the error message formats `args[1]` (the value,
here `Number 2`), not the offending first argument `Number 1`, so it does not
identify the offending value. -/
theorem make_global_error_formats_value_argument :
    make envNested [Value.String "x", Value.Number 5] =
      (Except.ok Value.Nothing, ⟨[⟨[("x", Value.Number 5)]⟩], ⟨[]⟩, turtle0⟩) ∧
    global envNested [Value.String "y", Value.Number 6] =
      (Except.ok Value.Nothing, ⟨[⟨[]⟩], ⟨[("y", Value.Number 6)]⟩, turtle0⟩) ∧
    make envNested [Value.Number 1, Value.Number 2] =
      (Except.error ⟨"invalid argument: " ++ valueDebug (Value.Number 2)⟩, envNested) ∧
    global envNested [Value.Number 1, Value.Number 2] =
      (Except.error ⟨"invalid argument: " ++ valueDebug (Value.Number 2)⟩, envNested) ∧
    valueDebug (Value.Number 2) ≠ valueDebug (Value.Number 1) := by
  refine ⟨rfl, rfl, rfl, rfl, ?_⟩
  simp only [valueDebug]
  decide

/-- C6: for a list and a nonnegative in-range number `n`, `getindex` returns
the element at index `n` (truncated toward zero) when it is below the list's
length, and fails with an out-of-bounds error carrying both the requested
index and the length otherwise; in particular `getindex([10, 20], 2)` fails
naming index 2 and length 2. -/
theorem getindex_bounds_check (env : Environment) (values : List Value) (n : ℚ)
    (h0 : 0 ≤ n) (h1 : ⌊n⌋.toNat ≤ usizeMax) :
    (⌊n⌋.toNat < values.length →
      getindex env [Value.List values, Value.Number n] =
        Except.ok (values.getD ⌊n⌋.toNat Value.Nothing)) ∧
    (values.length ≤ ⌊n⌋.toNat →
      getindex env [Value.List values, Value.Number n] =
        Except.error ⟨"Index out of bounds: " ++ toString ⌊n⌋.toNat ++ " >= " ++
          toString values.length⟩) ∧
    getindex env [Value.List [Value.Number 10, Value.Number 20], Value.Number 2] =
      Except.error ⟨"Index out of bounds: 2 >= 2"⟩ := by
  have hcast : f32ToUsize n = ⌊n⌋.toNat := by
    rw [f32ToUsize, if_neg (not_lt.mpr h0), min_eq_left h1]
  refine ⟨?_, ?_, ?_⟩
  · intro hlt
    simp [getindex, hcast, not_le.mpr hlt]
  · intro hge
    simp [getindex, hcast, hge]
  · rfl

/-- Witness for C6: at the list `[10, 20]` and index 2 the hypotheses hold and
the out-of-bounds branch fires, naming index 2 and length 2. -/
theorem getindex_bounds_check_witness :
    (0 : ℚ) ≤ 2 ∧ ⌊(2 : ℚ)⌋.toNat ≤ usizeMax ∧
    getindex env0 [Value.List [Value.Number 10, Value.Number 20], Value.Number 2] =
      Except.error ⟨"Index out of bounds: 2 >= 2"⟩ := by
  have h0 : (0 : ℚ) ≤ 2 := by norm_num
  have h1 : ⌊(2 : ℚ)⌋.toNat ≤ usizeMax := by decide
  exact ⟨h0, h1, (getindex_bounds_check env0 [Value.Number 10, Value.Number 20] 2 h0 h1).2.2⟩

/-- C7: `head` returns Nothing on the empty list and the first element on a
non-empty list; `tail` returns Nothing on the empty list and the new list of
all but the first element on a non-empty list (the argument value itself is
never mutated: all builtins are functions of it). -/
theorem head_tail_spec (env : Environment) (v : Value) (vs : List Value) :
    head env [Value.List []] = Except.ok Value.Nothing ∧
    head env [Value.List (v :: vs)] = Except.ok v ∧
    tail env [Value.List []] = Except.ok Value.Nothing ∧
    tail env [Value.List (v :: vs)] = Except.ok (Value.List vs) :=
  ⟨rfl, rfl, rfl, rfl⟩

/-- C10: for a negative numeric index the `as usize` cast saturates at zero,
so `getindex` behaves as if the index were 0: the first element of a non-empty
list, and an out-of-bounds error naming index 0 and length 0 on the empty
list. -/
theorem getindex_negative_saturates (env : Environment) (values : List Value) (n : ℚ)
    (h : n < 0) :
    getindex env [Value.List values, Value.Number n] =
      getindex env [Value.List values, Value.Number 0] ∧
    (values = [] →
      getindex env [Value.List values, Value.Number n] =
        Except.error ⟨"Index out of bounds: 0 >= 0"⟩) ∧
    (∀ v rest, values = v :: rest →
      getindex env [Value.List values, Value.Number n] = Except.ok v) := by
  have hcast : f32ToUsize n = 0 := by rw [f32ToUsize, if_pos h]
  have hzero : f32ToUsize 0 = 0 := by rfl
  refine ⟨?_, ?_, ?_⟩
  · simp only [getindex]
    rw [hcast, hzero]
  · rintro rfl
    simp only [getindex]
    rw [hcast]
    rfl
  · rintro v rest rfl
    simp [getindex, hcast]

/-- Witness for C10: at index -3 into the one-element list `[7]` the negative
index is saturated to 0 and the first element comes back. -/
theorem getindex_negative_saturates_witness :
    (-3 : ℚ) < 0 ∧
    getindex env0 [Value.List [Value.Number 7], Value.Number (-3)] =
      Except.ok (Value.Number 7) := by
  have h : (-3 : ℚ) < 0 := by norm_num
  exact ⟨h, (getindex_negative_saturates env0 [Value.Number 7] (-3) h).2.2
    (Value.Number 7) [] rfl⟩

/-- C8: `screenshot` with a text path: when the file cannot be created it
returns an I/O runtime failure (a `RuntimeError`, never a crash) and leaves
the file system untouched; on every path — success or failure — the
environment (hence the turtle it owns) comes back exactly as it was; on
success it returns Nothing and its only side effect is creating or
overwriting the target file. -/
theorem screenshot_io_contract (createOk : String → Bool) (encodeOk : Bitmap → Bool)
    (fs : FileSystem) (env : Environment) (name : String) :
    (createOk name = false →
      (∃ msg, (screenshot createOk encodeOk fs env [Value.String name]).1 =
        Except.error ⟨msg⟩) ∧
      (screenshot createOk encodeOk fs env [Value.String name]).2.1 = fs) ∧
    (screenshot createOk encodeOk fs env [Value.String name]).2.2 = env ∧
    (createOk name = true → encodeOk env.turtle.screen.screenshot = true →
      (screenshot createOk encodeOk fs env [Value.String name]).1 = Except.ok Value.Nothing ∧
      (screenshot createOk encodeOk fs env [Value.String name]).2.1 =
        fsWrite fs name (some env.turtle.screen.screenshot)) := by
  refine ⟨?_, ?_, ?_⟩
  · intro hfail
    constructor
    · exact ⟨"could not create file: " ++ name, by simp [screenshot, hfail]⟩
    · simp [screenshot, hfail]
  · by_cases hc : createOk name <;> by_cases he : encodeOk env.turtle.screen.screenshot <;>
      simp [screenshot, hc, he]
  · intro hc he
    constructor
    · simp [screenshot, hc, he]
    · simp only [screenshot, hc, he, if_true]
      rw [fsWrite, fsWrite, fsWrite]
      simp [List.filter_filter]

/-- Witness for C8: a file system where no path can be created (the spec's
`/nonexistent/dir/out.png` scenario): the call fails with a runtime error and
both the file system and the environment are unchanged. -/
theorem screenshot_io_contract_witness :
    (fun _ : String => false) "/nonexistent/dir/out.png" = false ∧
    (∃ msg, (screenshot (fun _ => false) (fun _ => true) [] env0
      [Value.String "/nonexistent/dir/out.png"]).1 = Except.error ⟨msg⟩) ∧
    (screenshot (fun _ => false) (fun _ => true) [] env0
      [Value.String "/nonexistent/dir/out.png"]).2.1 = [] ∧
    (screenshot (fun _ => false) (fun _ => true) [] env0
      [Value.String "/nonexistent/dir/out.png"]).2.2 = env0 := by
  have h := screenshot_io_contract (fun _ => false) (fun _ => true) [] env0
    "/nonexistent/dir/out.png"
  exact ⟨rfl, (h.1 rfl).1, (h.1 rfl).2, h.2.1⟩
